import Mathlib

/-!
# Verification of the superdocker dashboard state machine

Shallow embedding of the terminal dashboard in `main.go` (and the earlier
variant in `src/unnamed/part_000`), together with theorems settling the
spec claims about it.

Go byte strings are modelled as `List Char`; this is exact for the ASCII
data handled here (Go `len`/slicing count bytes, which coincide with
characters on ASCII).
-/

namespace Superdocker

/-- Convert a Lean string literal to the `List Char` representation used
for Go strings throughout this development. -/
def gs (s : String) : List Char := s.toList

/-- Embedding of `short12` (main.go:57): return a 12-character short ID. -/
def short12 (id : List Char) : List Char :=
  if 12 < id.length then id.take 12 else id

/-- Embedding of `stripSha256` (main.go:65): strip a `sha256:` prefix if
present (`id[len("sha256:"):]` drops the first 7 characters). -/
def stripSha256 (id : List Char) : List Char :=
  if (gs "sha256:").isPrefixOf id then id.drop 7 else id

/-- Embedding of `trimTo` (main.go:73): trim a string to max `n`
characters, adding `...` if needed. -/
def trimTo (s : List Char) (n : Nat) : List Char :=
  if n ≤ 3 ∨ s.length ≤ n then s else s.take (n - 3) ++ gs "..."

/-- The `k=v` cell built for one map entry inside `joinKV` (main.go:87). -/
def kvPair (p : List Char × List Char) : List Char :=
  p.1 ++ gs "=" ++ p.2

/-- The rendered `k=v` cells of a map enumeration, in enumeration order. -/
def kvPieces (l : List (List Char × List Char)) : List (List Char) :=
  l.map kvPair

/-- Join of an already-built list of `k=v` cells: `-` when there are no
entries, otherwise the cells joined by `", "` (main.go:81-90). -/
def glueKV : List (List Char) → List Char
  | [] => gs "-"
  | pieces@(_ :: _) => List.intercalate (gs ", ") pieces

/-- Embedding of `joinKV` (main.go:81): join a map as `k=v`, comma
separated; returns `-` if empty.  A Go `map` has no intrinsic order, so
the function is modelled on an explicit enumeration order `l` of the
map's entries; distinct runs of the program may enumerate the same map
in different orders. -/
def joinKV (l : List (List Char × List Char)) : List Char :=
  match l with
  | [] => gs "-"
  | _ :: _ => List.intercalate (gs ", ") (l.map kvPair)

/-- Real-arithmetic model of `math.Round(float64(total) * 0.3)`
(main.go:94): rounding of `3·t/10` to the nearest integer, ties away
from zero.  (`float64(total)` is exact for terminal widths and the
claims' content does not hinge on the last ulp of `0.3`.) -/
def round30 (t : Int) : Int :=
  if 0 ≤ t then (6 * t + 10) / 20 else -((6 * (-t) + 10) / 20)

/-- Embedding of `computeColumnsWidth` (main.go:93): compute left/right
column widths from the total width. -/
def computeColumnsWidth (total : Int) : Int × Int :=
  let lw0 := round30 total
  let lw := if lw0 < 10 then 10 else lw0
  let rw0 := total - lw
  let rw := if rw0 < 10 then 10 else rw0
  (lw, rw)

/-- Decimal rendering of a natural number. -/
def natStr (n : Nat) : List Char := (toString n).toList

/-- Decimal rendering of an integer (Go `%d`). -/
def intStr (n : Int) : List Char := (toString n).toList

/-- Model of `fmt.Sprintf("%.1fMB", float64(size)/1024.0/1024.0)`
(main.go:370): the value `size / 2^20` is exactly representable (the two
divisions by 1024 only shift the exponent), and Go formats it with one
fractional digit using correct rounding, ties to even. -/
def fmtMB (size : Nat) : List Char :=
  let num := 10 * size
  let den := 1048576
  let q := num / den
  let r := num % den
  let tenths :=
    if 2 * r < den then q
    else if den < 2 * r then q + 1
    else if q % 2 = 0 then q else q + 1
  natStr (tenths / 10) ++ gs "." ++ natStr (tenths % 10) ++ gs "MB"

/-- `strings.TrimPrefix(name, "/")` as used on container names
(main.go:355). -/
def trimPrefixSlash (n : List Char) : List Char :=
  match n with
  | '/' :: rest => rest
  | _ => n

/-- State of one `bubbles/table` widget as used by the dashboard: its
rows, the selection cursor, and the focus flag (the only parts of the
external widget the dashboard reads or writes through `SetRows`,
`Focus`, `Blur`, `SelectedRow` and `Rows`). -/
structure TableM where
  rows : List (List (List Char))
  cursor : Nat
  focused : Bool
deriving DecidableEq

/-- `table.Focus()`. -/
def TableM.focus (t : TableM) : TableM := { t with focused := true }

/-- `table.Blur()`. -/
def TableM.blur (t : TableM) : TableM := { t with focused := false }

/-- `table.SetRows(rows)`. -/
def TableM.setRows (t : TableM) (rows : List (List (List Char))) : TableM :=
  { t with rows := rows }

/-- `table.SelectedRow()`: the row under the cursor, `none` when out of
range (in particular when `rows` is empty). -/
def TableM.selectedRow (t : TableM) : Option (List (List Char)) :=
  t.rows.get? t.cursor

/-- A published port of a container (`container.Port`). -/
structure PortRec where
  ip : List Char
  privatePort : Int
  publicPort : Int
  ptype : List Char
deriving DecidableEq

/-- A mount point of a container. -/
structure MountRec where
  source : List Char
  destination : List Char
deriving DecidableEq

/-- A container record (`container.Summary`), restricted to the fields
the dashboard reads.  `networkNames` models `NetworkSettings.Networks`:
`none` for a nil `NetworkSettings`, otherwise the map's keys in one
enumeration order. -/
structure ContainerSummary where
  id : List Char
  image : List Char
  command : List Char
  state : List Char
  status : List Char
  names : List (List Char)
  ports : List PortRec
  mounts : List MountRec
  networkNames : Option (List (List Char))
deriving DecidableEq

/-- An image record (`image.Summary`), restricted to the fields read. -/
structure ImageSummary where
  id : List Char
  repoTags : List (List Char)
  repoDigests : List (List Char)
  size : Nat
  containers : Int
deriving DecidableEq

/-- A volume record (`volume.Volume`).  `labels` and `options` model Go
maps as entry lists in one enumeration order. -/
structure VolumeRec where
  name : List Char
  driver : List Char
  mountpoint : List Char
  createdAt : List Char
  labels : List (List Char × List Char)
  options : List (List Char × List Char)
deriving DecidableEq

/-- A network record (`network.Summary`), restricted to the fields read. -/
structure NetworkRec where
  id : List Char
  name : List Char
  driver : List Char
  scope : List Char
  internal : Bool
  attachable : Bool
  ingress : Bool
  enableIPv6 : Bool
deriving DecidableEq

/-- The `dataLoadedMsg` fetch result (main.go:48). -/
structure DataLoadedMsg where
  containers : List ContainerSummary
  images : List ImageSummary
  volumes : List VolumeRec
  networks : List NetworkRec
  err : Option (List Char)
deriving DecidableEq

/-- The messages the dashboard `Update` dispatches on: terminal resize,
a key press (by its `msg.String()` name), or a fetch result. -/
inductive Msg where
  | windowSize (w h : Int)
  | key (s : String)
  | dataLoaded (d : DataLoadedMsg)
deriving DecidableEq

/-- The commands `Update` can return: nothing, `tea.Quit`, or the
`loadData` fetch. -/
inductive Cmd where
  | nothing
  | quit
  | load
deriving DecidableEq

/-- The dashboard model (main.go:31). -/
structure Model where
  containersTable : TableM
  imagesTable : TableM
  volumesTable : TableM
  networksTable : TableM
  containers : List ContainerSummary
  images : List ImageSummary
  volumes : List VolumeRec
  networks : List NetworkRec
  err : Option (List Char)
  loading : Bool
  focusIndex : Nat
  width : Int
  height : Int
deriving DecidableEq

/-- `initialModel` (main.go:159): empty tables, the containers table
focused (`table.WithFocused(true)`), `loading = true`. -/
def initialModel : Model :=
  { containersTable := { rows := [], cursor := 0, focused := true }
    imagesTable := { rows := [], cursor := 0, focused := false }
    volumesTable := { rows := [], cursor := 0, focused := false }
    networksTable := { rows := [], cursor := 0, focused := false }
    containers := []
    images := []
    volumes := []
    networks := []
    err := none
    loading := true
    focusIndex := 0
    width := 0
    height := 0 }

/-- The container row built by the `dataLoadedMsg` handler
(main.go:348-358). -/
def containerRow (c : ContainerSummary) : List (List Char) :=
  [short12 c.id, trimTo c.image 25, trimTo c.command 20, c.status,
   match c.names with
   | [] => []
   | n :: _ => trimPrefixSlash n]

/-- The image row built by the `dataLoadedMsg` handler
(main.go:364-371). -/
def imageRow (img : ImageSummary) : List (List Char) :=
  [(match img.repoTags with
    | [] => gs "<none>:<none>"
    | t :: _ => t),
   short12 (stripSha256 img.id), fmtMB img.size]

/-- The volume row built by the `dataLoadedMsg` handler
(main.go:377-381). -/
def volumeRow (v : VolumeRec) : List (List Char) :=
  [v.name, v.driver, trimTo v.mountpoint 40]

/-- The network row built by the `dataLoadedMsg` handler
(main.go:387-392). -/
def networkRow (n : NetworkRec) : List (List Char) :=
  [n.name, short12 (stripSha256 n.id), n.driver, n.scope]

/-- The `tab`/`right` focus-cycle handler (main.go:255-306): advance
`focusIndex` modulo 4, then focus the table at the new index and blur
the other three. -/
def focusTabRight (m : Model) : Model :=
  let fi := (m.focusIndex + 1) % 4
  if fi = 0 then
    { m with
      focusIndex := fi
      containersTable := m.containersTable.focus
      imagesTable := m.imagesTable.blur
      volumesTable := m.volumesTable.blur
      networksTable := m.networksTable.blur }
  else if fi = 1 then
    { m with
      focusIndex := fi
      containersTable := m.containersTable.blur
      imagesTable := m.imagesTable.focus
      volumesTable := m.volumesTable.blur
      networksTable := m.networksTable.blur }
  else if fi = 2 then
    { m with
      focusIndex := fi
      containersTable := m.containersTable.blur
      imagesTable := m.imagesTable.blur
      volumesTable := m.volumesTable.focus
      networksTable := m.networksTable.blur }
  else if fi = 3 then
    { m with
      focusIndex := fi
      containersTable := m.containersTable.blur
      imagesTable := m.imagesTable.blur
      volumesTable := m.volumesTable.blur
      networksTable := m.networksTable.focus }
  else
    { m with focusIndex := fi }

/-- The `left` focus-cycle handler (main.go:307-332).  It also advances
`focusIndex` modulo 4, but its focus bookkeeping differs from the
`tab`/`right` handler: in the branches for the new index 1, 2 and 3 the
table that receives `Focus()` is the one at the previous index
(`containersTable` under `case 1: // images`, `imagesTable` under
`case 2: // volumes`, `volumesTable` under `case 3: // networks`),
transcribed here exactly as in the source. -/
def focusLeft (m : Model) : Model :=
  let fi := (m.focusIndex + 1) % 4
  if fi = 0 then
    { m with
      focusIndex := fi
      containersTable := m.containersTable.focus
      imagesTable := m.imagesTable.blur
      volumesTable := m.volumesTable.blur
      networksTable := m.networksTable.blur }
  else if fi = 1 then
    { m with
      focusIndex := fi
      containersTable := m.containersTable.focus
      imagesTable := m.imagesTable.blur
      volumesTable := m.volumesTable.blur
      networksTable := m.networksTable.blur }
  else if fi = 2 then
    { m with
      focusIndex := fi
      containersTable := m.containersTable.blur
      imagesTable := m.imagesTable.focus
      volumesTable := m.volumesTable.blur
      networksTable := m.networksTable.blur }
  else if fi = 3 then
    { m with
      focusIndex := fi
      containersTable := m.containersTable.blur
      imagesTable := m.imagesTable.blur
      volumesTable := m.volumesTable.focus
      networksTable := m.networksTable.blur }
  else
    { m with focusIndex := fi }

/-- The `dataLoadedMsg` handler (main.go:335-395): clear `loading`; on
an error record it and return; on success install the snapshot and
rebuild all four row sets.  Note the handler never clears `err` on
success. -/
def applyDataLoaded (m : Model) (d : DataLoadedMsg) : Model :=
  let m := { m with loading := false }
  match d.err with
  | some e => { m with err := some e }
  | none =>
    { m with
      containers := d.containers
      images := d.images
      volumes := d.volumes
      networks := d.networks
      containersTable := m.containersTable.setRows (d.containers.map containerRow)
      imagesTable := m.imagesTable.setRows (d.images.map imageRow)
      volumesTable := m.volumesTable.setRows (d.volumes.map volumeRow)
      networksTable := m.networksTable.setRows (d.networks.map networkRow) }

/-- The fall-through routing switch (main.go:399-408): hand the message
to the focused table's own update function `route` (the external
`bubbles/table` behaviour, passed as a parameter). -/
def routeToFocused (route : Msg → TableM → TableM) (m : Model) (msg : Msg) : Model :=
  if m.focusIndex = 0 then { m with containersTable := route msg m.containersTable }
  else if m.focusIndex = 1 then { m with imagesTable := route msg m.imagesTable }
  else if m.focusIndex = 2 then { m with volumesTable := route msg m.volumesTable }
  else if m.focusIndex = 3 then { m with networksTable := route msg m.networksTable }
  else m

/-- Embedding of `Update` (main.go:240), parameterized by the external
table update function `route` used in the routing switch. -/
def Update (route : Msg → TableM → TableM) (m : Model) (msg : Msg) : Model × Cmd :=
  match msg with
  | .windowSize w h => ({ m with width := w, height := h }, .nothing)
  | .dataLoaded d => (applyDataLoaded m d, .nothing)
  | .key s =>
    if s = "q" ∨ s = "ctrl+c" ∨ s = "esc" then (m, .quit)
    else if s = "r" then ({ m with loading := true }, .load)
    else if s = "tab" then (focusTabRight m, .nothing)
    else if s = "right" then (focusTabRight m, .nothing)
    else if s = "left" then (focusLeft m, .nothing)
    else (routeToFocused route m msg, .nothing)

/-- The three top-level branches of `View` (main.go:412-419). -/
inductive Frame where
  | errorFrame (e : List Char)
  | loadingFrame
  | dashboardFrame
deriving DecidableEq

/-- Which of `View`'s three mutually exclusive branches renders: the
error message when `err != nil` (checked first), the loading notice when
`loading`, otherwise the dashboard (main.go:413-419). -/
def viewBranch (m : Model) : Frame :=
  match m.err with
  | some e => .errorFrame e
  | none => if m.loading then .loadingFrame else .dashboardFrame

/-- One port entry of the container detail text (main.go:518-526). -/
def portEntry (p : PortRec) : List Char :=
  let entry := intStr p.privatePort ++ gs "/" ++ p.ptype
  let entry :=
    if p.publicPort ≠ 0 then
      intStr p.publicPort ++ gs "->" ++ intStr p.privatePort ++ gs "/" ++ p.ptype
    else entry
  if p.ip ≠ [] then p.ip ++ gs ":" ++ entry else entry

/-- The multi-line detail text for a found container (main.go:503-556). -/
def containerInfoText (c : ContainerSummary) : List Char :=
  let name :=
    match c.names with
    | [] => ([] : List Char)
    | n :: _ => trimPrefixSlash n
  let ports :=
    match c.ports with
    | [] => gs "-"
    | ps => List.intercalate (gs ", ") (ps.map portEntry)
  let mounts :=
    match c.mounts with
    | [] => gs "-"
    | ms => List.intercalate (gs ", ")
        (ms.map fun mnt => trimTo mnt.source 30 ++ gs ":" ++ mnt.destination)
  let networks :=
    match c.networkNames with
    | some (ns@(_ :: _)) => List.intercalate (gs ", ") ns
    | _ => gs "-"
  gs "Name: " ++ name ++ gs "\nID: " ++ short12 c.id ++
  gs "\nImage: " ++ c.image ++ gs "\nCommand: " ++ c.command ++
  gs "\nState: " ++ c.state ++ gs "\nStatus: " ++ c.status ++
  gs "\nPorts: " ++ ports ++ gs "\nMounts: " ++ mounts ++
  gs "\nNetworks: " ++ networks

/-- Embedding of `renderSelectedContainerInfo` (main.go:478): resolve
the selected row's short ID back into the snapshot and format the
container's details, degrading to `"No container selected."` when the
snapshot or the row set is empty, when no row is selected, or when the
lookup finds no match. -/
def renderSelectedContainerInfo (m : Model) : List Char :=
  if m.containers = [] ∨ m.containersTable.rows = [] then gs "No container selected."
  else
    match m.containersTable.selectedRow with
    | none => gs "No container selected."
    | some sel =>
      match sel with
      | [] => gs "No container selected."
      | shortID :: _ =>
        match m.containers.find? (fun c => short12 c.id == shortID) with
        | none => gs "No container selected."
        | some c => containerInfoText c

/-- The multi-line detail text for a found volume (main.go:627-640),
with `name` taken from the selected row's first cell as in the source. -/
def volumeInfoText (name : List Char) (vol : VolumeRec) : List Char :=
  let mount := trimTo vol.mountpoint 60
  let labels := joinKV vol.labels
  let options := joinKV vol.options
  let created := if vol.createdAt = [] then gs "-" else vol.createdAt
  gs "Name: " ++ name ++ gs "\nDriver: " ++ vol.driver ++
  gs "\nMountpoint: " ++ mount ++ gs "\nLabels: " ++ labels ++
  gs "\nOptions: " ++ options ++ gs "\nCreated: " ++ created

/-- Embedding of `renderSelectedVolumeInfo` (main.go:603): resolve the
selected row's name back into the snapshot and format the volume's
details, degrading to `"No volume selected."` defensively. -/
def renderSelectedVolumeInfo (m : Model) : List Char :=
  if m.volumes = [] ∨ m.volumesTable.rows = [] then gs "No volume selected."
  else
    match m.volumesTable.selectedRow with
    | none => gs "No volume selected."
    | some sel =>
      match sel with
      | [] => gs "No volume selected."
      | name :: _ =>
        match m.volumes.find? (fun v => v.name == name) with
        | none => gs "No volume selected."
        | some vol => volumeInfoText name vol

end Superdocker

namespace SuperdockerV0

open Superdocker

/-!
The earlier source variant (`src/unnamed/part_000`).  Its model has no
terminal-size fields and no snapshot collections, only the four tables,
the error, the loading flag and the focus index; its `Update` handles
only the quit keys, `r` and `tab`, and its fall-through routing switch
has cases for focus indices 0, 1 and 2 only.  The row-building code in
its `dataLoadedMsg` handler inlines the same shortening/truncation
arithmetic as `main.go`'s helpers (`id[:12]`, `s[:n-3] + "..."`), so the
row builders are shared.
-/

/-- The dashboard model of `part_000` (part_000:30-38). -/
structure Model where
  containersTable : TableM
  imagesTable : TableM
  volumesTable : TableM
  networksTable : TableM
  err : Option (List Char)
  loading : Bool
  focusIndex : Nat
deriving DecidableEq

/-- `initialModel` of `part_000` (part_000:88-163): empty tables, the
containers table focused, `loading = true`. -/
def initialModel : Model :=
  { containersTable := { rows := [], cursor := 0, focused := true }
    imagesTable := { rows := [], cursor := 0, focused := false }
    volumesTable := { rows := [], cursor := 0, focused := false }
    networksTable := { rows := [], cursor := 0, focused := false }
    err := none
    loading := true
    focusIndex := 0 }

/-- The `tab` handler of `part_000` (part_000:180-205): advance
`focusIndex` modulo 4, focus the table at the new index, blur the rest. -/
def focusTab (m : Model) : Model :=
  let fi := (m.focusIndex + 1) % 4
  if fi = 0 then
    { m with
      focusIndex := fi
      containersTable := m.containersTable.focus
      imagesTable := m.imagesTable.blur
      volumesTable := m.volumesTable.blur
      networksTable := m.networksTable.blur }
  else if fi = 1 then
    { m with
      focusIndex := fi
      containersTable := m.containersTable.blur
      imagesTable := m.imagesTable.focus
      volumesTable := m.volumesTable.blur
      networksTable := m.networksTable.blur }
  else if fi = 2 then
    { m with
      focusIndex := fi
      containersTable := m.containersTable.blur
      imagesTable := m.imagesTable.blur
      volumesTable := m.volumesTable.focus
      networksTable := m.networksTable.blur }
  else if fi = 3 then
    { m with
      focusIndex := fi
      containersTable := m.containersTable.blur
      imagesTable := m.imagesTable.blur
      volumesTable := m.volumesTable.blur
      networksTable := m.networksTable.focus }
  else
    { m with focusIndex := fi }

/-- The `dataLoadedMsg` handler of `part_000` (part_000:208-288). -/
def applyDataLoaded (m : Model) (d : DataLoadedMsg) : Model :=
  let m := { m with loading := false }
  match d.err with
  | some e => { m with err := some e }
  | none =>
    { m with
      containersTable := m.containersTable.setRows (d.containers.map containerRow)
      imagesTable := m.imagesTable.setRows (d.images.map imageRow)
      volumesTable := m.volumesTable.setRows (d.volumes.map volumeRow)
      networksTable := m.networksTable.setRows (d.networks.map networkRow) }

/-- The fall-through routing switch of `part_000` (part_000:291-300):
only focus indices 0, 1 and 2 route the message to a table; index 3 has
no case, so nothing is updated. -/
def routeToFocused (route : Msg → TableM → TableM) (m : Model) (msg : Msg) : Model :=
  if m.focusIndex = 0 then { m with containersTable := route msg m.containersTable }
  else if m.focusIndex = 1 then { m with imagesTable := route msg m.imagesTable }
  else if m.focusIndex = 2 then { m with volumesTable := route msg m.volumesTable }
  else m

/-- Embedding of `Update` of `part_000` (part_000:169), parameterized by
the external table update function `route`.  There is no
`tea.WindowSizeMsg` case in this variant, so resize messages fall
through to the routing switch like unrecognized keys. -/
def Update (route : Msg → TableM → TableM) (m : Model) (msg : Msg) : Model × Cmd :=
  match msg with
  | .dataLoaded d => (applyDataLoaded m d, .nothing)
  | .key s =>
    if s = "q" ∨ s = "ctrl+c" ∨ s = "esc" then (m, .quit)
    else if s = "r" then ({ m with loading := true }, .load)
    else if s = "tab" then (focusTab m, .nothing)
    else (routeToFocused route m msg, .nothing)
  | .windowSize _ _ => (routeToFocused route m msg, .nothing)

end SuperdockerV0

namespace Superdocker

/-- Number of focused widgets among the four tables of the dashboard. -/
def focusCount (m : Model) : Nat :=
  m.containersTable.focused.toNat + m.imagesTable.focused.toNat +
  m.volumesTable.focused.toNat + m.networksTable.focused.toNat

/-- The states of the `main.go` dashboard reachable from `initialModel`
under `Update`, for a fixed external table update function `route`. -/
inductive Reach (route : Msg → TableM → TableM) : Model → Prop where
  | init : Reach route initialModel
  | step {m : Model} (msg : Msg) : Reach route m → Reach route (Update route m msg).1

/-- A trivial instantiation of the external table update function (used
to evaluate the state machine on concrete scenarios whose messages never
reach the routing switch). -/
def route0 : Msg → TableM → TableM := fun _ t => t

/-- Fixture: a container record. -/
def cEx : ContainerSummary :=
  { id := gs "0123456789abcdef"
    image := gs "nginx"
    command := gs "nginx -g daemon"
    state := gs "running"
    status := gs "Up 5 minutes"
    names := [gs "/web"]
    ports := []
    mounts := []
    networkNames := none }

/-- Fixture: the image record of end-to-end scenario A
(`RepoTags=["nginx:latest"]`, an ID of `sha256:` followed by a run of
`a`s, `Size=104857600`). -/
def iEx : ImageSummary :=
  { id := gs "sha256:aaaaaaaaaaaaaaaa"
    repoTags := [gs "nginx:latest"]
    repoDigests := []
    size := 104857600
    containers := 0 }

/-- Fixture: a volume record. -/
def vEx : VolumeRec :=
  { name := gs "data"
    driver := gs "local"
    mountpoint := gs "/var/lib/docker/volumes/data"
    createdAt := gs "2024-01-01"
    labels := []
    options := [] }

/-- Fixture: a network record. -/
def nEx : NetworkRec :=
  { id := gs "abcdef0123456789"
    name := gs "bridge"
    driver := gs "bridge"
    scope := gs "local"
    internal := false
    attachable := false
    ingress := false
    enableIPv6 := false }

/-- Fixture: a successful fetch result with one record per category. -/
def dOk : DataLoadedMsg :=
  { containers := [cEx], images := [iEx], volumes := [vEx], networks := [nEx], err := none }

/-- Fixture: a failed fetch result. -/
def dErr : DataLoadedMsg :=
  { containers := [], images := [], volumes := [], networks := [], err := some (gs "boom") }

/-- The dashboard after its initial fetch fails: the `Error` state. -/
def mFail : Model := (Update route0 initialModel (.dataLoaded dErr)).1

/-- The dashboard after the refresh command is issued from the `Error`
state. -/
def mRefresh : Model := (Update route0 mFail (.key "r")).1

/-- The dashboard after the refreshed fetch succeeds. -/
def mAfter : Model := (Update route0 mRefresh (.dataLoaded dOk)).1

/-- The dashboard after a single `left` key from the initial state. -/
def mLeft : Model := (Update route0 initialModel (.key "left")).1

/-- The dashboard after three `tab` keys from the initial state. -/
def tab3 : Model :=
  (Update route0
    (Update route0 (Update route0 initialModel (.key "tab")).1 (.key "tab")).1
    (.key "tab")).1

/-- The dashboard after four `tab` keys from the initial state. -/
def tab4 : Model := (Update route0 tab3 (.key "tab")).1

/-- Two enumeration orders of the same two-entry map `{a: 1, b: 2}`. -/
def kvA : List (List Char × List Char) := [(gs "a", gs "1"), (gs "b", gs "2")]

/-- The reverse enumeration order of the same map. -/
def kvB : List (List Char × List Char) := [(gs "b", gs "2"), (gs "a", gs "1")]

/-- The conditions under which no containers-table row is selected:
`SelectedRow` returns nil or an empty row (main.go:485-488). -/
def noneSelectedC (m : Model) : Prop :=
  m.containersTable.selectedRow = none ∨ m.containersTable.selectedRow = some []

/-- The condition under which the selected containers-table row's short
ID matches no container of the snapshot (main.go:491-498). -/
def lookupMissC (m : Model) : Prop :=
  ∃ k rest, m.containersTable.selectedRow = some (k :: rest) ∧
    ∀ c ∈ m.containers, short12 c.id ≠ k

end Superdocker

namespace SuperdockerV0

open Superdocker

/-- The `part_000` dashboard after three `tab` keys from the initial
state: the networks table is the active category and is focused. -/
def v0tab3 : Model :=
  (Update route0
    (Update route0 (Update route0 initialModel (.key "tab")).1 (.key "tab")).1
    (.key "tab")).1

end SuperdockerV0

namespace Superdocker

theorem length_ellipsis : (gs "...").length = 3 := by decide

theorem focusCount_focusTabRight (m : Model) : focusCount (focusTabRight m) = 1 := by
  have hlt : (m.focusIndex + 1) % 4 < 4 := Nat.mod_lt _ (by norm_num)
  dsimp only [focusTabRight]
  split_ifs with h0 h1 h2 h3
  · simp [focusCount, TableM.focus, TableM.blur]
  · simp [focusCount, TableM.focus, TableM.blur]
  · simp [focusCount, TableM.focus, TableM.blur]
  · simp [focusCount, TableM.focus, TableM.blur]
  · omega

theorem focusCount_focusLeft (m : Model) : focusCount (focusLeft m) = 1 := by
  have hlt : (m.focusIndex + 1) % 4 < 4 := Nat.mod_lt _ (by norm_num)
  dsimp only [focusLeft]
  split_ifs with h0 h1 h2 h3
  · simp [focusCount, TableM.focus, TableM.blur]
  · simp [focusCount, TableM.focus, TableM.blur]
  · simp [focusCount, TableM.focus, TableM.blur]
  · simp [focusCount, TableM.focus, TableM.blur]
  · omega

theorem focusCount_routeToFocused (route : Msg → TableM → TableM)
    (hroute : ∀ msg t, (route msg t).focused = t.focused)
    (m : Model) (msg : Msg) :
    focusCount (routeToFocused route m msg) = focusCount m := by
  dsimp only [routeToFocused]
  split_ifs <;> simp [focusCount, hroute]

theorem focusCount_applyDataLoaded (m : Model) (d : DataLoadedMsg) :
    focusCount (applyDataLoaded m d) = focusCount m := by
  dsimp only [applyDataLoaded]
  rcases d.err with _ | e <;> simp [focusCount, TableM.setRows]

theorem reach_focusCount (route : Msg → TableM → TableM)
    (hroute : ∀ msg t, (route msg t).focused = t.focused) :
    ∀ m, Reach route m → focusCount m = 1 := by
  intro m h
  induction h with
  | init => decide
  | @step m' msg _ ih =>
    cases msg with
    | windowSize w h' => simpa [Update, focusCount] using ih
    | dataLoaded d =>
      simpa [Update, focusCount_applyDataLoaded] using ih
    | key s =>
      simp only [Update]
      split_ifs with h1 h2 h3 h4 h5
      · simpa using ih
      · simpa using ih
      · simpa using focusCount_focusTabRight m'
      · simpa using focusCount_focusTabRight m'
      · simpa using focusCount_focusLeft m'
      · have := focusCount_routeToFocused route hroute m' (.key s)
        simpa [this] using ih

end Superdocker

namespace Superdocker

theorem focusTabRight_focusIndex (m : Model) :
    (focusTabRight m).focusIndex = (m.focusIndex + 1) % 4 := by
  dsimp only [focusTabRight]
  split_ifs <;> rfl

theorem focusLeft_focusIndex (m : Model) :
    (focusLeft m).focusIndex = (m.focusIndex + 1) % 4 := by
  dsimp only [focusLeft]
  split_ifs <;> rfl

/-- Claim C4: `trimTo` returns `s` unchanged when the limit is at most 3
or `s` fits within the limit; otherwise it returns the first `n - 3`
characters of `s` followed by the three-character ellipsis, and the
result's length is at most `n`. -/
theorem trimTo_truncation (s : List Char) (n : Nat) :
    ((n ≤ 3 ∨ s.length ≤ n) → trimTo s n = s) ∧
    (s.length > n → n > 3 →
      trimTo s n = s.take (n - 3) ++ gs "..." ∧ (trimTo s n).length ≤ n) := by
  constructor
  · intro h
    simp only [trimTo]
    rw [if_pos h]
  · intro h1 h2
    have hcond : ¬(n ≤ 3 ∨ s.length ≤ n) := by omega
    have heq : trimTo s n = s.take (n - 3) ++ gs "..." := by
      simp only [trimTo]
      rw [if_neg hcond]
    refine ⟨heq, ?_⟩
    rw [heq, List.length_append, List.length_take, length_ellipsis]
    omega

/-- Instance of claim C4's theorem at concrete inputs: a 3-character
string with limit 10 is unchanged; an 8-character string with limit 5
becomes its first 2 characters plus the ellipsis and has length at
most 5. -/
theorem trimTo_truncation_applied :
    trimTo (gs "abc") 10 = gs "abc" ∧
    trimTo (gs "abcdefgh") 5 = gs "ab..." ∧ (trimTo (gs "abcdefgh") 5).length ≤ 5 := by
  have h1 := (trimTo_truncation (gs "abc") 10).1 (Or.inr (by decide))
  have h2 := (trimTo_truncation (gs "abcdefgh") 5).2 (by decide) (by decide)
  exact ⟨h1, h2.1.trans (by decide), h2.2⟩

/-- Claim C7: for every total width, `computeColumnsWidth` returns a
left width equal to `round(total × 0.3)` raised to a minimum of 10 and a
right width equal to the remainder raised to a minimum of 10, and both
widths are always at least 10. -/
theorem computeColumnsWidth_contract (total : Int) :
    (computeColumnsWidth total).1 = max (round30 total) 10 ∧
    (computeColumnsWidth total).2 = max (total - (computeColumnsWidth total).1) 10 ∧
    10 ≤ (computeColumnsWidth total).1 ∧ 10 ≤ (computeColumnsWidth total).2 := by
  dsimp only [computeColumnsWidth]
  split_ifs <;> refine ⟨?_, ?_, ?_, ?_⟩ <;> omega

end Superdocker

namespace Superdocker

/-- Claim C3: in every reachable dashboard state that is not loading and
not in error, exactly one of the four list widgets is focused.  The
external table update function is assumed not to touch the focus flag
(the widget contract: only `Focus()`/`Blur()` change it); reachability
covers every event handler of `Update` together with initialization. -/
theorem singleFocus_invariant (route : Msg → TableM → TableM)
    (hroute : ∀ msg t, (route msg t).focused = t.focused)
    (m : Model) (hm : Reach route m)
    (_hload : m.loading = false) (_herr : m.err = none) :
    focusCount m = 1 :=
  reach_focusCount route hroute m hm

/-- Instance of claim C3's theorem: the state reached by a successful
initial fetch has exactly one focused widget. -/
theorem singleFocus_invariant_applied :
    focusCount (Update route0 initialModel (Msg.dataLoaded dOk)).1 = 1 :=
  singleFocus_invariant route0 (fun _ _ => rfl) _
    (Reach.step (Msg.dataLoaded dOk) Reach.init) rfl rfl

/-- Claim C6 counterexample: starting from `activeIndex = 0`, three
forward focus-cycle commands leave `activeIndex` at 3, not 0. -/
theorem threeTabs_do_not_return :
    tab3.focusIndex = 3 ∧ ¬ tab3.focusIndex = 0 := by decide

/-- Claim C6 as amended: every focus-cycle command (`tab`, `right` and
`left` alike) advances `activeIndex` by exactly 1 modulo 4, and four
forward focus-cycle commands — not three — return `activeIndex` from 0
back to 0. -/
theorem focusCycle_advances_mod4 (route : Msg → TableM → TableM) (m : Model)
    (s : String) (h : s = "tab" ∨ s = "right" ∨ s = "left") :
    (Update route m (.key s)).1.focusIndex = (m.focusIndex + 1) % 4 ∧
    tab4.focusIndex = 0 := by
  refine ⟨?_, by decide⟩
  rcases h with h | h | h <;> subst h
  · have e : (Update route m (.key "tab")).1 = focusTabRight m := rfl
    rw [e, focusTabRight_focusIndex]
  · have e : (Update route m (.key "right")).1 = focusTabRight m := rfl
    rw [e, focusTabRight_focusIndex]
  · have e : (Update route m (.key "left")).1 = focusLeft m := rfl
    rw [e, focusLeft_focusIndex]

/-- Instance of claim C6's amended theorem at a concrete input: the
`left` key advances the initial state's `activeIndex` by 1 modulo 4. -/
theorem focusCycle_advances_mod4_applied :
    (Update route0 initialModel (Msg.key "left")).1.focusIndex =
      (initialModel.focusIndex + 1) % 4 ∧ tab4.focusIndex = 0 :=
  focusCycle_advances_mod4 route0 initialModel "left" (Or.inr (Or.inr rfl))

/-- Claim C5 counterexample: the two-entry map `{a: 1, b: 2}` admits two
enumeration orders — permutations of one another, hence the same Go map
value — on which `joinKV` produces different text, so the volume detail
text is not a function of the dashboard state alone and two renders of
the same state can differ. -/
theorem joinKV_order_dependent :
    kvA.Perm kvB ∧ joinKV kvA ≠ joinKV kvB := by
  constructor
  · decide
  · decide

/-- Claim C5 as amended: rendering is deterministic as a function of the
state together with the map enumeration orders; `joinKV` is the join of
the `k=v` cells of the enumeration, and any two enumeration orders of
the same map render the same cells up to permutation. -/
theorem joinKV_cells_perm (l1 l2 : List (List Char × List Char))
    (h : l1.Perm l2) :
    joinKV l1 = glueKV (kvPieces l1) ∧ joinKV l2 = glueKV (kvPieces l2) ∧
    (kvPieces l1).Perm (kvPieces l2) := by
  refine ⟨?_, ?_, h.map kvPair⟩
  · cases l1 <;> rfl
  · cases l2 <;> rfl

/-- Instance of claim C5's amended theorem at the two concrete
enumeration orders of `{a: 1, b: 2}`. -/
theorem joinKV_cells_perm_applied :
    joinKV kvA = glueKV (kvPieces kvA) ∧ joinKV kvB = glueKV (kvPieces kvB) ∧
    (kvPieces kvA).Perm (kvPieces kvB) :=
  joinKV_cells_perm kvA kvB (by decide)

end Superdocker

namespace Superdocker

/-- Claim C1 (evidence of the code bug): from the `Error` state, issuing
the refresh command and then receiving a successful fetch result does
install the new snapshot and populate all four widgets' row sets, and
clears `loading` — but `Update` never clears `err` on a successful
fetch, so `View` still renders the error message instead of the
dashboard. -/
theorem errorState_refresh_divergence :
    mAfter.containers = [cEx] ∧ mAfter.images = [iEx] ∧
    mAfter.volumes = [vEx] ∧ mAfter.networks = [nEx] ∧
    mAfter.containersTable.rows = [containerRow cEx] ∧
    mAfter.imagesTable.rows = [imageRow iEx] ∧
    mAfter.volumesTable.rows = [volumeRow vEx] ∧
    mAfter.networksTable.rows = [networkRow nEx] ∧
    mAfter.loading = false ∧
    mAfter.err = some (gs "boom") ∧
    viewBranch mAfter = Frame.errorFrame (gs "boom") :=
  ⟨rfl, rfl, rfl, rfl, rfl, rfl, rfl, rfl, rfl, rfl, rfl⟩

/-- Claim C2 (evidence of the code bug): after the `left` focus-cycle
key from the initial state, the new `activeIndex` is 1, but the widget
at index 1 (`imagesTable`) is not focused — `containersTable` is, the
branch labelled `// images` in the source having focused the containers
table instead. -/
theorem leftKey_focus_divergence :
    mLeft.focusIndex = 1 ∧ mLeft.containersTable.focused = true ∧
    mLeft.imagesTable.focused = false ∧
    mLeft.volumesTable.focused = false ∧ mLeft.networksTable.focused = false :=
  ⟨rfl, rfl, rfl, rfl, rfl⟩

/-- Claim C8: every image display row consists of the first
repository:tag label (or the literal `<none>:<none>` when the label list
is empty), the identifier with any `sha256:` prefix stripped and cut to
its first 12 characters (a plain prefix, no ellipsis), and the size
rendered as `%.1fMB` via division by 1024 twice; on the concrete image
of scenario A the row delivered into the images table is
`["nginx:latest", "aaaaaaaaaaaa", "100.0MB"]`. -/
theorem imageRow_contract (img : ImageSummary) :
    imageRow img =
      [(match img.repoTags with
        | [] => gs "<none>:<none>"
        | t :: _ => t),
       short12 (stripSha256 img.id), fmtMB img.size] ∧
    (short12 (stripSha256 img.id)).length ≤ 12 ∧
    short12 (stripSha256 img.id) <+: stripSha256 img.id ∧
    (applyDataLoaded initialModel
        { containers := [], images := [iEx], volumes := [], networks := [], err := none }
      ).imagesTable.rows =
      [[gs "nginx:latest", gs "aaaaaaaaaaaa", gs "100.0MB"]] := by
  refine ⟨rfl, ?_, ?_, by decide⟩
  · dsimp only [short12]
    split_ifs with h
    · rw [List.length_take]
      omega
    · omega
  · dsimp only [short12]
    split_ifs with h
    · exact List.take_prefix _ _
    · exact List.prefix_refl _

/-- Claim C9: the compute-unit detail resolver returns exactly the
literal `"No container selected."` whenever the containers collection is
empty, whenever no row is selected (`SelectedRow` nil or an empty row),
or whenever the selected row's 12-character identifier matches no
container of the snapshot; being a total function it produces no other
failure in these cases. -/
theorem containerInfo_placeholder (m : Model)
    (h : m.containers = [] ∨ noneSelectedC m ∨ lookupMissC m) :
    renderSelectedContainerInfo m = gs "No container selected." := by
  unfold renderSelectedContainerInfo
  rcases h with h | h | h
  · rw [if_pos (Or.inl h)]
  · by_cases hempty : m.containers = [] ∨ m.containersTable.rows = []
    · rw [if_pos hempty]
    · rw [if_neg hempty]
      rcases h with h | h <;> rw [h]
  · by_cases hempty : m.containers = [] ∨ m.containersTable.rows = []
    · rw [if_pos hempty]
    · rw [if_neg hempty]
      obtain ⟨k, rest, hsel, hall⟩ := h
      rw [hsel]
      have hfind : m.containers.find? (fun c => short12 c.id == k) = none := by
        rw [List.find?_eq_none]
        intro c hc
        simpa using hall c hc
      dsimp only
      rw [hfind]

/-- Instance of claim C9's theorem: the initial state has an empty
containers collection and resolves to the placeholder. -/
theorem containerInfo_placeholder_applied :
    renderSelectedContainerInfo initialModel = gs "No container selected." :=
  containerInfo_placeholder initialModel (Or.inl rfl)

end Superdocker

namespace SuperdockerV0

open Superdocker

/-- Claim C10 counterexample: in the `part_000` variant, with the
networks category active (index 3, reached by three `tab` presses), the
`tab` key event does change a table — it blurs the networks table — so
it is not the case that every key event arriving at `activeIndex = 3`
leaves all four tables unchanged. -/
theorem tab_modifies_networksTable :
    v0tab3.focusIndex = 3 ∧ v0tab3.networksTable.focused = true ∧
    (Update route0 v0tab3 (Msg.key "tab")).1.networksTable ≠ v0tab3.networksTable := by
  refine ⟨rfl, rfl, ?_⟩
  decide

/-- Claim C10 as amended: in the `part_000` variant, every key event
that reaches the fall-through routing switch — any key other than the
handled `q`, `ctrl+c`, `esc`, `r` and `tab` — leaves the whole model,
and in particular all four tables with their selection and scroll state,
unchanged when `activeIndex = 3`, whatever the external table update
function does; only the handled keys can alter the tables (the `tab`
handler changes focus flags). -/
theorem networksFocused_frame (route : Msg → TableM → TableM)
    (m : Model) (s : String) (h3 : m.focusIndex = 3)
    (hq : s ≠ "q") (hc : s ≠ "ctrl+c") (he : s ≠ "esc")
    (hr : s ≠ "r") (ht : s ≠ "tab") :
    (Update route m (.key s)).1 = m := by
  simp only [Update]
  rw [if_neg (by simp [hq, hc, he]), if_neg hr, if_neg ht]
  simp [routeToFocused, h3]

/-- Instance of claim C10's amended theorem: the `up` key at
`activeIndex = 3` leaves the `part_000` model unchanged. -/
theorem networksFocused_frame_applied :
    (Update route0 v0tab3 (Msg.key "up")).1 = v0tab3 :=
  networksFocused_frame route0 v0tab3 "up" rfl
    (by decide) (by decide) (by decide) (by decide) (by decide)

end SuperdockerV0
